import Mathlib

/-!
# Verification of the trip-genie sequential pipeline

A shallow embedding of the repository's pipeline core and stages
(`agent/base_agent.py`, `agent/agents.py`, `agent/models.py`,
`agent/config.py`, `agent/utils.py`) together with theorems settling the
frozen claims about the natural-language specification.

Modelling conventions:
* Python floats are modelled as exact rationals (`ℚ`); every numeric
  constant appearing in the source (40, 0.8, 1.3, 200, 20, 0.6, 0.4, ...)
  is integer-valued in every product the code computes, so exact
  arithmetic and float arithmetic agree on the quantities the claims
  mention.
* Python `date` values are modelled as integers (a day number);
  `timedelta(days=k)` becomes `+ k`.
* The dynamic data bag (`Dict[str, Any]`) threaded between stages is an
  association list of `String × Value` pairs; pydantic parsing of
  `UserPreferences(**data)` is embedded by `parseUserPreferences`.
* Network collaborators (geocoding, LLM chat) and the float-valued
  haversine distance are parameters of the stage functions; the stages'
  own logic is translated from the source.
* `asyncio.wait_for` timeouts and raised exceptions are modelled by the
  `StageOutcome` type: a stage invocation either completes with an
  `AgentOutput`, exceeds the timeout guard, or raises.
-/

namespace TripGenie

/-! ## Generic list helpers (substring test, stable insertion sort) -/

/-- `prefixSeq needle hay` : is `needle` a prefix of `hay`? -/
def prefixSeq : List Char → List Char → Bool
  | [], _ => true
  | _ :: _, [] => false
  | a :: as, b :: bs => a = b && prefixSeq as bs

/-- `containsSeq hay needle` : Python's `needle in hay` substring test. -/
def containsSeq : List Char → List Char → Bool
  | [], needle => needle.isEmpty
  | h :: t, needle => prefixSeq needle (h :: t) || containsSeq t needle

/-- Insert `x` into `l` before the first element `y` with `le x y`;
the building block of the stable insertion sort below. -/
def insertLe (le : α → α → Bool) (x : α) : List α → List α
  | [] => [x]
  | y :: ys => if le x y then x :: y :: ys else y :: insertLe le x ys

/-- Stable sort with respect to the boolean comparison `le`; on a
non-strict comparison it agrees element-for-element with Python's
stable `list.sort`. -/
def sortLe (le : α → α → Bool) : List α → List α
  | [] => []
  | x :: xs => insertLe le x (sortLe le xs)

theorem mem_insertLe (le : α → α → Bool) (x : α) (l : List α) (a : α) :
    a ∈ insertLe le x l ↔ a = x ∨ a ∈ l := by
  induction l with
  | nil => simp [insertLe]
  | cons y ys ih =>
      by_cases h : le x y
      · simp [insertLe, h]
      · simp [insertLe, h, ih]
        tauto

theorem mem_sortLe (le : α → α → Bool) (l : List α) (a : α) :
    a ∈ sortLe le l ↔ a ∈ l := by
  induction l with
  | nil => simp [sortLe]
  | cons x xs ih => simp [sortLe, mem_insertLe, ih]

theorem length_insertLe (le : α → α → Bool) (x : α) (l : List α) :
    (insertLe le x l).length = l.length + 1 := by
  induction l with
  | nil => simp [insertLe]
  | cons y ys ih =>
      by_cases h : le x y
      · simp [insertLe, h]
      · simp [insertLe, h, ih]

theorem length_sortLe (le : α → α → Bool) (l : List α) :
    (sortLe le l).length = l.length := by
  induction l with
  | nil => simp [sortLe]
  | cons x xs ih => simp [sortLe, length_insertLe, ih]

theorem pairwise_insertLe (le : α → α → Bool)
    (htot : ∀ a b, le a b = true ∨ le b a = true)
    (htrans : ∀ a b c, le a b = true → le b c = true → le a c = true)
    (x : α) (l : List α)
    (h : List.Pairwise (fun a b => le a b = true) l) :
    List.Pairwise (fun a b => le a b = true) (insertLe le x l) := by
  induction l with
  | nil => simp [insertLe]
  | cons y ys ih =>
      rcases List.pairwise_cons.mp h with ⟨hy, hys⟩
      by_cases hxy : le x y
      · rw [insertLe, if_pos hxy]
        refine List.pairwise_cons.mpr ⟨?_, h⟩
        intro z hz
        rcases List.mem_cons.mp hz with hzy | hz
        · rw [hzy]; exact hxy
        · exact htrans x y z hxy (hy _ hz)
      · rw [insertLe, if_neg hxy]
        refine List.pairwise_cons.mpr ⟨?_, ih hys⟩
        intro z hz
        rcases (mem_insertLe le x ys z).mp hz with hzx | hz
        · rw [hzx]
          rcases htot x y with hx | hx
          · exact absurd hx hxy
          · exact hx
        · exact hy _ hz

theorem pairwise_sortLe (le : α → α → Bool)
    (htot : ∀ a b, le a b = true ∨ le b a = true)
    (htrans : ∀ a b c, le a b = true → le b c = true → le a c = true)
    (l : List α) :
    List.Pairwise (fun a b => le a b = true) (sortLe le l) := by
  induction l with
  | nil => simp [sortLe]
  | cons x xs ih => exact pairwise_insertLe le htot htrans x _ ih

/-! ## Python string helpers (`str.lower`, `str.strip`) on ASCII text -/

/-- ASCII case folding, the effect of Python's `str.lower` on the ASCII
strings the pipeline manipulates. -/
def lowerChar (c : Char) : Char :=
  if 65 ≤ c.toNat ∧ c.toNat ≤ 90 then Char.ofNat (c.toNat + 32) else c

/-- Python `s.lower()` (ASCII model). -/
def pyLower (s : String) : String := ⟨s.data.map lowerChar⟩

/-- Python whitespace stripped by `str.strip` (ASCII model). -/
def isPyWs (c : Char) : Bool :=
  c = ' ' || c = '\t' || c = '\n' || c = '\r' || c = '\x0b' || c = '\x0c'

/-- Python `s.strip()` (ASCII model). -/
def pyStrip (s : String) : String :=
  ⟨((s.data.dropWhile isPyWs).reverse.dropWhile isPyWs).reverse⟩

/-! ## `config.py` : `Settings` -/

/-- `Settings` from `agent/config.py`, with its declared default values
(the fields the pipeline core reads). -/
structure Settings where
  google_maps_api_key : String := ""
  ollama_model : String := "llama3"
  max_search_queries : ℕ := 5
  max_results_per_query : ℕ := 10
  max_total_places : ℕ := 60
  agent_timeout_seconds : ℕ := 12
  ranking_relevance_weight : ℚ := 6/10
  ranking_popularity_weight : ℚ := 4/10
  precipitation_avoid_threshold : ℚ := 60

/-- The module-level `settings = Settings()` singleton. -/
def settings : Settings := {}

/-! ## The dynamic data bag -/

/-- A dynamic Python value as it appears in the inter-stage data bag. -/
inductive Value where
  | vnone
  | bool (b : Bool)
  | str (s : String)
  | int (n : ℤ)
  | num (q : ℚ)
  | vdate (d : ℤ)
  | list (xs : List Value)
  | dict (entries : List (String × Value))

/-- The data bag: a Python `Dict[str, Any]` as an association list. -/
abbrev Bag := List (String × Value)

/-- `d.get(k)` on the bag. -/
def lookupV : Bag → String → Option Value
  | [], _ => none
  | (k, v) :: rest, key => if k = key then some v else lookupV rest key

/-! ## `models.py` : typed domain records -/

/-- `TravelStyle` enum. -/
inductive TravelStyle where
  | relaxed | moderate | packed
deriving DecidableEq

/-- `TravelStyle.value`. -/
def TravelStyle.val : TravelStyle → String
  | .relaxed => "relaxed"
  | .moderate => "moderate"
  | .packed => "packed"

/-- `Budget` enum. -/
inductive Budget where
  | low | medium | high
deriving DecidableEq

/-- `Budget.value`. -/
def Budget.val : Budget → String
  | .low => "low"
  | .medium => "medium"
  | .high => "high"

/-- `UserPreferences` (already validated: pydantic guarantees
`1 ≤ duration_days ≤ 30` at construction, see `parseUserPreferences`). -/
structure UserPreferences where
  destination : String
  origin : Option String := none
  duration_days : ℕ
  interests : List String := []
  budget : Budget := .medium
  travel_style : TravelStyle := .moderate
  start_date : Option ℤ := none
deriving DecidableEq

/-- `Location`. -/
structure Location where
  name : String
  address : String
  latitude : ℚ
  longitude : ℚ
  place_id : Option String := none
deriving DecidableEq

/-- `Place`. -/
structure Place where
  name : String
  location : Location
  category : String
  rating : Option ℚ := none
  description : Option String := none
  popularity_score : ℚ := 0
  relevance_score : ℚ := 0
  distance_from_route : Option ℚ := none
deriving DecidableEq

/-- `Weather`. -/
structure Weather where
  date : ℤ
  condition : String
  temperature_max : ℚ
  temperature_min : ℚ
  precipitation_chance : ℚ
  description : String
deriving DecidableEq

/-- `Activity`.  The pydantic model has no `estimated_cost` field; the
cost stage adds an `estimated_cost` key to the activity's dict, which is
modelled here as an extra optional field defaulting to `none`. -/
structure Activity where
  time : String
  place : Place
  duration_hours : ℚ
  activity_type : String
  notes : Option String := none
  estimated_cost : Option ℚ := none
deriving DecidableEq

/-- `DayItinerary`. -/
structure DayItinerary where
  day_number : ℕ
  date : ℤ
  weather : Option Weather := none
  activities : List Activity
  total_distance_km : ℚ := 0
  estimated_cost : Option ℚ := none
deriving DecidableEq

/-- `Itinerary`. -/
structure Itinerary where
  destination : String
  origin : Option String := none
  start_date : ℤ
  end_date : ℤ
  days : List DayItinerary
  total_distance_km : ℚ := 0
  estimated_total_cost : Option ℚ := none
  preferences : UserPreferences
deriving DecidableEq

/-! ## pydantic parsing of `UserPreferences(**data)`

Embeds the used surface of pydantic v1 on the bag values that flow
through the pipeline: required fields error when missing, optional
fields accept `None`, extra keys are ignored, the `interests` validator
runs only when the key was supplied (pydantic does not run validators on
defaulted fields), and the declared range `1 ≤ duration_days ≤ 30` is
enforced.  Numeric/string cross-coercions of pydantic are not modelled;
every bag the pipeline builds is exactly typed. -/

/-- The `interests` validator of `UserPreferences`:
default tags on an empty list, `interest.lower().strip()` otherwise. -/
def normalizeInterests (v : List String) : List String :=
  if v = [] then ["sightseeing", "culture", "food"]
  else v.map (fun s => pyStrip (pyLower s))

/-- Read one element of the supplied `interests` list as a string. -/
def asStr : Value → Option String
  | .str s => some s
  | _ => none

/-- Read every element of a list of values as a string. -/
def allStrs : List Value → Option (List String)
  | [] => some []
  | v :: vs =>
      match asStr v, allStrs vs with
      | some s, some ss => some (s :: ss)
      | _, _ => none

/-- Parse the supplied `interests` value and apply its validator. -/
def parseInterests : Value → Except String (List String)
  | .list xs =>
      match allStrs xs with
      | some ss => .ok (normalizeInterests ss)
      | none => .error "str type expected: interests"
  | _ => .error "value is not a valid list: interests"

/-- Parse the `budget` enum from its string value. -/
def budgetOfStr (s : String) : Except String Budget :=
  if s = "low" then .ok .low
  else if s = "medium" then .ok .medium
  else if s = "high" then .ok .high
  else .error "value is not a valid enumeration member: budget"

/-- Parse the `travel_style` enum from its string value. -/
def styleOfStr (s : String) : Except String TravelStyle :=
  if s = "relaxed" then .ok .relaxed
  else if s = "moderate" then .ok .moderate
  else if s = "packed" then .ok .packed
  else .error "value is not a valid enumeration member: travel_style"

/-- `UserPreferences(**data)` : pydantic construction from the bag. -/
def parseUserPreferences (bag : Bag) : Except String UserPreferences := do
  let destination ←
    match lookupV bag "destination" with
    | some (.str s) => .ok s
    | some _ => .error "str type expected: destination"
    | none => .error "field required: destination"
  let origin ←
    match lookupV bag "origin" with
    | none => .ok none
    | some .vnone => .ok none
    | some (.str s) => .ok (some s)
    | some _ => .error "str type expected: origin"
  let duration_days ←
    match lookupV bag "duration_days" with
    | some (.int n) =>
        if 1 ≤ n ∧ n ≤ 30 then .ok n.toNat
        else .error "duration_days out of range"
    | some _ => .error "integer type expected: duration_days"
    | none => .error "field required: duration_days"
  let interests ←
    match lookupV bag "interests" with
    | none => .ok []
    | some v => parseInterests v
  let budget ←
    match lookupV bag "budget" with
    | none => .ok .medium
    | some (.str s) => budgetOfStr s
    | some _ => .error "value is not a valid enumeration member: budget"
  let travel_style ←
    match lookupV bag "travel_style" with
    | none => .ok .moderate
    | some (.str s) => styleOfStr s
    | some _ => .error "value is not a valid enumeration member: travel_style"
  let start_date ←
    match lookupV bag "start_date" with
    | none => .ok none
    | some .vnone => .ok none
    | some (.vdate d) => .ok (some d)
    | some _ => .error "invalid date format: start_date"
  .ok { destination, origin, duration_days, interests, budget,
        travel_style, start_date }

/-- `prefs.dict()` : serialize the preferences back into a dict value. -/
def prefsToDict (p : UserPreferences) : List (String × Value) :=
  [("destination", .str p.destination),
   ("origin", match p.origin with | some s => .str s | none => .vnone),
   ("duration_days", .int p.duration_days),
   ("interests", .list (p.interests.map .str)),
   ("budget", .str p.budget.val),
   ("travel_style", .str p.travel_style.val),
   ("start_date", match p.start_date with | some d => .vdate d | none => .vnone)]

/-- `location.dict()`. -/
def locToDict (l : Location) : List (String × Value) :=
  [("name", .str l.name),
   ("address", .str l.address),
   ("latitude", .num l.latitude),
   ("longitude", .num l.longitude),
   ("place_id", match l.place_id with | some s => .str s | none => .vnone)]

/-! ## `base_agent.py` : stage envelope, failure boundary, runner -/

/-- `AgentInput`. -/
structure AgentInput where
  data : Bag
  metadata : Bag := []

/-- `AgentOutput`. -/
structure AgentOutput where
  data : Bag
  metadata : Bag := []
  success : Bool := true
  error : Option String := none

/-- What one invocation of a stage's `process` coroutine does under the
runner's guard: complete with an output, exceed the
`asyncio.wait_for` timeout, or raise an exception. -/
inductive StageOutcome where
  | completes (o : AgentOutput)
  | timeout
  | raises (msg : String)

/-- A stage (`BaseAgent` subclass): its `process` behaviour on a given
input. -/
abbrev StageFun := AgentInput → StageOutcome

/-- The result `BaseAgent.run` returns when `asyncio.wait_for` elapses. -/
def timeoutOutput : AgentOutput :=
  { data := [], metadata := [("error", .str "timeout")],
    success := false, error := some "Agent timed out" }

/-- The result `BaseAgent.run` returns when `process` raises `msg`. -/
def raiseOutput (msg : String) : AgentOutput :=
  { data := [], metadata := [("error", .str msg)],
    success := false, error := some msg }

/-- `BaseAgent.run` : invoke `process` under the timeout guard and the
failure boundary. -/
def agentRun (s : StageFun) (inp : AgentInput) : AgentOutput :=
  match s inp with
  | .completes o => o
  | .timeout => timeoutOutput
  | .raises msg => raiseOutput msg

/-- The loop body of `SequentialAgent.run`.  The `last` argument tracks
the Python local variable `output`: `none` means it was never assigned,
so that falling off an empty loop and executing `return output` raises
`UnboundLocalError`, modelled as `Except.error ()`. -/
def seqRunLoop : List StageFun → AgentInput → Option AgentOutput →
    Except Unit AgentOutput
  | [], _, none => .error ()
  | [], _, some out => .ok out
  | a :: rest, cur, _ =>
      let out := agentRun a cur
      if out.success then
        seqRunLoop rest { data := out.data, metadata := out.metadata } (some out)
      else
        .ok out

/-- `SequentialAgent.run`. -/
def seqRun (agents : List StageFun) (initial_input : Bag) :
    Except Unit AgentOutput :=
  seqRunLoop agents { data := initial_input } none

/-- The input reaching the stage after `agents` have all run, starting
from `inp` (the `current_data` threading of the runner). -/
def thread : List StageFun → AgentInput → AgentInput
  | [], cur => cur
  | a :: rest, cur =>
      thread rest { data := (agentRun a cur).data,
                    metadata := (agentRun a cur).metadata }

/-- Do all of `agents`, run in sequence from `cur`, succeed? -/
def allOk : List StageFun → AgentInput → Bool
  | [], _ => true
  | a :: rest, cur =>
      (agentRun a cur).success &&
        allOk rest { data := (agentRun a cur).data,
                     metadata := (agentRun a cur).metadata }

/-! ## `agents.py` : `InputValidatorAgent.process` (dynamic bag level)

The geocoding collaborator (`geocode_location`, a network call returning
a location dict or `None`) is a parameter; `date.today()` is the
parameter `today`. -/

/-- `InputValidatorAgent.process`. -/
def validatorProcess (geocode : String → Option Location) (today : ℤ)
    (input : Bag) : AgentOutput :=
  match parseUserPreferences input with
  | .error e =>
      { data := [], success := false,
        error := some ("Invalid user preferences: " ++ e) }
  | .ok prefs0 =>
      match geocode prefs0.destination with
      | none =>
          { data := [], success := false,
            error := some ("Could not geocode destination: " ++
                           prefs0.destination) }
      | some destination_location =>
          -- `if prefs.origin:` — both `None` and `""` are falsy
          let origin_location : Option Location :=
            match prefs0.origin with
            | some o => if o = "" then none else geocode o
            | none => none
          -- `if not prefs.start_date: prefs.start_date = today + 7`
          let prefs :=
            if prefs0.start_date = none then
              { prefs0 with start_date := some (today + 7) }
            else prefs0
          { data := [("preferences", .dict (prefsToDict prefs)),
                     ("destination_location",
                      .dict (locToDict destination_location)),
                     ("origin_location",
                      match origin_location with
                      | some l => .dict (locToDict l)
                      | none => .vnone)],
            metadata := [("validated", .bool true), ("geocoded", .bool true)],
            success := true }

/-! ## `agents.py` : `DistanceEvaluatorAgent.process` (core computation)

The stage parses `destination_location`, `places` and `preferences` out
of the bag, computes a haversine distance for every place, filters by the
duration- and style-dependent cap and sorts ascending by distance.  The
float-valued trigonometric `haversine_distance` is a parameter `hav`. -/

/-- The travel-style multiplier table of `DistanceEvaluatorAgent.process`
(`.get(style, 1.0)` over the full enum). -/
def styleMultiplier : TravelStyle → ℚ
  | .relaxed => 8/10
  | .moderate => 1
  | .packed => 13/10

/-- `max_distance = min(int(base_distance * style_multiplier), 200)`. -/
def maxDistanceOf (prefs : UserPreferences) : ℤ :=
  min ⌊((prefs.duration_days * 40 : ℕ) : ℚ) * styleMultiplier prefs.travel_style⌋ 200

/-- `DistanceEvaluatorAgent.process` on the parsed values. -/
def distanceEvaluatorCore (hav : ℚ → ℚ → ℚ → ℚ → ℚ) (dest : Location)
    (prefs : UserPreferences) (places : List Place) : List Place :=
  let withDist := places.map (fun p =>
    let distance := hav dest.latitude dest.longitude
      p.location.latitude p.location.longitude
    { p with distance_from_route := some distance })
  let max_distance := maxDistanceOf prefs
  let filtered_places := withDist.filter (fun p =>
    match p.distance_from_route with
    | some dq => decide (dq ≤ (max_distance : ℚ))
    | none => false)
  -- `filtered_places.sort(key=lambda x: x.distance_from_route or 0)`
  sortLe (fun a b =>
    decide (a.distance_from_route.getD 0 ≤ b.distance_from_route.getD 0))
    filtered_places

/-! ## `utils.py` : `fetch_google_weather_forecast` (pure final fallback)

Only the function's shape matters to the claims: every return path of
the repository's fetch produces at most one record per requested day,
and the final (network-free) fallback produces exactly `days` records.
That last path is pure code and is embedded here. -/

/-- One normalized forecast record. -/
structure ForecastItem where
  dt : ℤ
  temp : ℚ
  temp_min : ℚ
  temp_max : ℚ
  humidity : ℚ
  weather_main : String
  weather_description : String
  wind_speed : ℚ
  pop : ℚ
  date_label : String
deriving DecidableEq

/-- The final fallback of `fetch_google_weather_forecast`: one synthetic
record per requested day. -/
def fallbackForecast (days : ℕ) : List ForecastItem :=
  (List.range days).map (fun i =>
    { dt := (i : ℤ) * 86400, temp := 22, temp_min := 18, temp_max := 26,
      humidity := 60, weather_main := "Clear",
      weather_description := "Clear sky", wind_speed := 7/2, pop := 1/10,
      date_label := "Day " ++ toString (i + 1) })

/-! ## `agents.py` : `WeatherOptimizerAgent.process` (core computation) -/

/-- Build one `Weather` record from a forecast entry, as the stage does. -/
def weatherOfForecast (day_date : ℤ) (f : ForecastItem) : Weather :=
  { date := day_date, condition := f.weather_main,
    temperature_max := f.temp_max, temperature_min := f.temp_min,
    precipitation_chance := f.pop * 100,
    description := f.weather_description }

/-- `WeatherOptimizerAgent.process` on the parsed values: the per-day
grouping loop over the fetched `weather_data`.  Note the stage indexes
`weather_data[day_offset * 8]`, assuming eight 3-hour records per day. -/
def weatherOptimizerCore (prefs : UserPreferences) (today : ℤ)
    (weather_data : List ForecastItem) : List Weather :=
  let current_date := prefs.start_date.getD today
  if weather_data.isEmpty then []
  else
    (List.range prefs.duration_days).filterMap (fun day_offset =>
      match weather_data.get? (day_offset * 8) with
      | some day_forecast =>
          some (weatherOfForecast (current_date + day_offset) day_forecast)
      | none => none)

/-! ## `agents.py` : `PlaceRankerAgent.process` (core computation)

The Llama collaborator is a parameter `llm : prompt → system_prompt →
Option String`, `none` meaning `call_llm` raised.  The stage's regex
extraction `re.search(r'\[[\d,\s]+\]', response)` and `json.loads` of
the matched text are embedded below (on ASCII text): a leftmost `[`
followed by a non-empty run of digits, commas and whitespace and then a
`]` matches; `json.loads` of the match succeeds iff the bracket contents
are a valid JSON array of unsigned integers. -/

/-- `(p.rating or 0)` : `None` and `0.0` both give `0`. -/
def ratingD (p : Place) : ℚ := p.rating.getD 0

/-- JSON whitespace accepted by `json.loads`. -/
def isJsonWs (c : Char) : Bool :=
  c = ' ' || c = '\t' || c = '\n' || c = '\r'

/-- The character class `[\d,\s]` of the score-array regex. -/
def isScoreChar (c : Char) : Bool :=
  c.isDigit || c = ',' || isJsonWs c || c = '\x0b' || c = '\x0c'

/-- `re.search(r'\[[\d,\s]+\]', response)` : contents of the first
match, if any.  (Greedy `+` with a forced closing bracket cannot
backtrack into a shorter class run followed by a class character, so a
position matches iff the maximal class run after its `[` is non-empty
and followed by `]`.) -/
def findScoreArray : List Char → Option (List Char)
  | [] => none
  | c :: rest =>
      if c = '[' then
        let run := rest.takeWhile isScoreChar
        match rest.dropWhile isScoreChar with
        | ']' :: _ => if run.isEmpty then findScoreArray rest else some run
        | _ => findScoreArray rest
      else findScoreArray rest

/-- Split the text between the brackets on commas. -/
def splitOnComma : List Char → List (List Char)
  | [] => [[]]
  | c :: rest =>
      if c = ',' then [] :: splitOnComma rest
      else
        match splitOnComma rest with
        | [] => [[c]]
        | piece :: more => (c :: piece) :: more

/-- Strip JSON whitespace from both ends of a token. -/
def trimJsonWs (l : List Char) : List Char :=
  ((l.dropWhile isJsonWs).reverse.dropWhile isJsonWs).reverse

/-- Digits of a token as a number. -/
def digitsToNat (l : List Char) : ℕ :=
  l.foldl (fun n c => n * 10 + (c.toNat - 48)) 0

/-- Is the token a valid JSON unsigned integer literal (no leading
zero)? -/
def validIntTok (l : List Char) : Bool :=
  !l.isEmpty && l.all (·.isDigit) &&
    (l.length == 1 || !(l.head? == some '0'))

/-- `json.loads` on the matched `[...]` text (contents given): a list of
unsigned integers, or `none` when the text is not valid JSON — in which
case the stage's `try` block raises and the full fallback runs. -/
def parseJsonIntList (content : List Char) : Option (List ℕ) :=
  if content.all isJsonWs then some []
  else
    let pieces := (splitOnComma content).map trimJsonWs
    if pieces.all validIntTok then some (pieces.map digitsToNat)
    else none

/-- Outcome of the score-extraction code on an LLM response. -/
inductive ScoreParse where
  | noMatch
  | jsonError
  | scoresOf (l : List ℕ)

/-- Regex search plus `json.loads` on a response text. -/
def parseScores (response : String) : ScoreParse :=
  match findScoreArray response.data with
  | none => .noMatch
  | some content =>
      match parseJsonIntList content with
      | some l => .scoresOf l
      | none => .jsonError

/-- The composite ranking key
`relevance * ranking_relevance_weight + popularity *
ranking_popularity_weight` (weights 0.6 / 0.4 from settings). -/
def compositeScore (p : Place) : ℚ :=
  p.relevance_score * settings.ranking_relevance_weight +
    p.popularity_score * settings.ranking_popularity_weight

/-- `places.sort(key=composite, reverse=True)` : Python's stable
descending sort. -/
def sortByCompositeDesc (places : List Place) : List Place :=
  sortLe (fun a b => decide (compositeScore b ≤ compositeScore a)) places

/-- The `for i, place in enumerate(places[:len(scores)])` assignment
loop: the first `len(scores)` places get `relevance_score := scores[i]`
and `popularity_score := (rating or 0) * 20`; later places keep their
fields. -/
def assignScores : List ℚ → List Place → List Place
  | _, [] => []
  | [], places => places
  | s :: ss, p :: ps =>
      { p with relevance_score := s, popularity_score := ratingD p * 20 } ::
        assignScores ss ps

/-- The `except` branch of the ranking stage: every place is rescored
purely from its rating. -/
def fallbackScoreAll (places : List Place) : List Place :=
  places.map (fun p =>
    { p with popularity_score := ratingD p * 20,
             relevance_score := ratingD p * 20 })

/-- The deterministic rating-derived ranking the stage falls back to
when the reasoning collaborator faults: a pure function of the input
places (their ratings). -/
def fallbackRanking (places : List Place) : List Place :=
  sortByCompositeDesc (fallbackScoreAll places)

/-- A rating rendered into the prompt (`p.rating or 'N/A'`). -/
def ratingText (r : Option ℚ) : String :=
  match r with
  | some q => if q = 0 then "N/A" else toString q
  | none => "N/A"

/-- The numbered place list interpolated into the user prompt. -/
def placesInfoText (places : List Place) : String :=
  String.intercalate "\n" (((places.take 30).enum).map (fun ip =>
    toString (ip.1 + 1) ++ ". " ++ ip.2.name ++ " - " ++ ip.2.category ++
      " (Rating: " ++ ratingText ip.2.rating ++ ")"))

/-- The system prompt of the ranking stage. -/
def rankerSystemPrompt : String :=
  "You are a travel expert. Score tourist places based on:\n1. Popularity and ratings\n2. Relevance to user interests\n3. Uniqueness and must-see factor\n\nReturn ONLY a JSON array of scores (0-100) in the same order as the input places."

/-- The user prompt of the ranking stage. -/
def rankerUserPrompt (prefs : UserPreferences) (places : List Place) : String :=
  "User interests: " ++ String.intercalate ", " prefs.interests ++
    "\nTravel style: " ++ prefs.travel_style.val ++
    "\nBudget: " ++ prefs.budget.val ++
    "\n\nPlaces to rank:\n" ++ placesInfoText places ++
    "\n\nReturn a JSON array of scores (0-100) for each place, in order."

/-- `PlaceRankerAgent.process` on the parsed values.  `llm` is the
Llama collaborator; `none` models `call_llm` raising, which lands in
the `except` branch, as does a `json.loads` failure inside the `try`
block. -/
def placeRankerCore (llm : String → String → Option String)
    (prefs : UserPreferences) (places : List Place) : List Place :=
  match llm (rankerUserPrompt prefs places) rankerSystemPrompt with
  | none => fallbackRanking places
  | some response =>
      match parseScores response with
      | .jsonError => fallbackRanking places
      | .noMatch =>
          -- in-`try` fallback: `scores = [(p.rating or 0) * 20 ...]`
          let scores := (places.take 30).map (fun p => ratingD p * 20)
          sortByCompositeDesc (assignScores scores places)
      | .scoresOf ns =>
          sortByCompositeDesc (assignScores (ns.map (fun n => (n : ℚ))) places)

/-! ## `agents.py` : `ItineraryPlannerAgent.process` (core computation) -/

/-- The fixed outdoor keyword set of the scheduling stage. -/
def outdoorKeywords : List String :=
  ["park", "trail", "outdoor", "beach", "garden", "mountain"]

/-- `any(k in p.category.lower() for k in keywords)`. -/
def isOutdoorPlace (p : Place) : Bool :=
  outdoorKeywords.any (fun k => containsSeq (pyLower p.category).data k.data)

/-- `f"{hour:02d}:00"` for the activity start times. -/
def timeOfHour (hour : ℕ) : String :=
  (if hour < 10 then "0" ++ toString hour else toString hour) ++ ":00"

/-- The activity-building loop of one day: start at the given hour
(initially 9, from "09:00") and add 3 hours per activity. -/
def buildActivities (outdoor_place_names : List String) :
    List Place → ℕ → List Activity
  | [], _ => []
  | place :: rest, hour =>
      { time := timeOfHour hour, place := place, duration_hours := 2,
        activity_type :=
          if outdoor_place_names.contains place.name then "outdoor"
          else "sightseeing",
        notes := some ("Visit " ++ place.name) } ::
        buildActivities outdoor_place_names rest (hour + 3)

/-- The weather-aware reordering comparison: Python's ascending stable
sort on the tuple key `(0 if outdoor else 1, -relevance_score)`. -/
def plannerReorderLe (outdoor_place_names : List String) (p q : Place) : Bool :=
  let fp : ℕ := if outdoor_place_names.contains p.name then 0 else 1
  let fq : ℕ := if outdoor_place_names.contains q.name then 0 else 1
  decide (fp < fq ∨ (fp = fq ∧ -p.relevance_score ≤ -q.relevance_score))

/-- One iteration of the planner's day loop: slice
`top_places[day_num*ppd : day_num*ppd + ppd]`, look the day's weather up
and build the day's activities starting at 09:00. -/
def plannerDayFor (top_places : List Place) (outdoor_place_names : List String)
    (weather_forecast : List Weather) (start_date : ℤ) (places_per_day : ℕ)
    (day_num : ℕ) : DayItinerary :=
  let start_idx := day_num * places_per_day
  let day_places := (top_places.drop start_idx).take places_per_day
  let target_date := start_date + day_num
  let day_weather := weather_forecast.find? (fun w =>
    decide (w.date = target_date))
  { day_number := day_num + 1, date := start_date + day_num,
    weather := day_weather,
    activities := buildActivities outdoor_place_names day_places 9,
    total_distance_km := 0 }

/-- `ItineraryPlannerAgent.process` on the parsed values.  `origin_name`
is `data.get("origin_location").get("name")` when an origin location is
in the bag; `today` stands for `date.today()`. -/
def itineraryPlannerCore (prefs : UserPreferences) (places : List Place)
    (weather_forecast : List Weather) (origin_name : Option String)
    (dest : Location) (today : ℤ) : Itinerary :=
  let start_date := prefs.start_date.getD today
  let max_places := prefs.duration_days * 4
  let top_places := places.take max_places
  let places_per_day :=
    if 0 < prefs.duration_days then top_places.length / prefs.duration_days
    else 0
  let outdoor_place_names :=
    (top_places.filter isOutdoorPlace).map (fun p => p.name)
  let sorted_weather_dates :=
    if weather_forecast.isEmpty then []
    else sortLe (fun a b =>
      decide (a.precipitation_chance ≤ b.precipitation_chance))
      weather_forecast
  let top_places :=
    if !sorted_weather_dates.isEmpty && !outdoor_place_names.isEmpty then
      sortLe (plannerReorderLe outdoor_place_names) top_places
    else top_places
  let days := (List.range prefs.duration_days).map
    (plannerDayFor top_places outdoor_place_names weather_forecast
      start_date places_per_day)
  { destination := dest.name, origin := origin_name,
    start_date := start_date,
    end_date := start_date + (prefs.duration_days : ℤ) - 1,
    days := days, preferences := prefs }

/-! ## `agents.py` : `CostEstimatorAgent.process` -/

/-- The ordered category→base-cost table (`base_map`, first match
wins, default 10). -/
def baseMap : List (String × ℚ) :=
  [("museum", 20), ("park", 0), ("gallery", 15), ("historic", 25),
   ("restaurant", 30), ("sightseeing", 10), ("outdoor", 5)]

/-- First-match lookup over `base_map` (default 10). -/
def firstBaseCost : List (String × ℚ) → String → ℚ
  | [], _ => 10
  | (k, v) :: rest, cat =>
      if containsSeq cat.data k.data then v else firstBaseCost rest cat

/-- The budget multiplier table (`.get(budget, 1.0)` over the full
enum). -/
def budgetMultiplier : Budget → ℚ
  | .low => 8/10
  | .medium => 1
  | .high => 14/10

/-- `round(x, 2)`.  On every cost the stage computes (an integer base
cost times 0.8, 1.0 or 1.4 summed over activities) the value has at most
two decimals and every rounding mode agrees; modelled as round half
up. -/
def roundTo2 (q : ℚ) : ℚ := (⌊q * 100 + 1/2⌋ : ℚ) / 100

/-- The per-activity cost before rounding. -/
def activityCost (budget_mult : ℚ) (act : Activity) : ℚ :=
  firstBaseCost baseMap (pyLower act.place.category) * budget_mult

/-- Attach `estimated_cost` to one activity's record. -/
def updateActivityCost (budget_mult : ℚ) (act : Activity) : Activity :=
  { act with estimated_cost := some (roundTo2 (activityCost budget_mult act)) }

/-- The accumulated (unrounded) cost of one day. -/
def dayRawCost (budget_mult : ℚ) (day : DayItinerary) : ℚ :=
  (day.activities.map (activityCost budget_mult)).sum

/-- The per-day update of the cost stage. -/
def updateDayCost (budget_mult : ℚ) (day : DayItinerary) : DayItinerary :=
  { day with
    activities := day.activities.map (updateActivityCost budget_mult),
    estimated_cost := some (roundTo2 (dayRawCost budget_mult day)) }

/-- The accumulated (unrounded) total cost of the itinerary. -/
def totalRawCost (budget_mult : ℚ) (itin : Itinerary) : ℚ :=
  (itin.days.map (dayRawCost budget_mult)).sum

/-- The success-path computation of `CostEstimatorAgent.process`:
per-activity costs, per-day sums and the overall total attached to the
itinerary record. -/
def costEstimatorUpdate (itin : Itinerary) : Itinerary :=
  let budget_mult := budgetMultiplier itin.preferences.budget
  { itin with
    days := itin.days.map (updateDayCost budget_mult),
    estimated_total_cost := some (roundTo2 (totalRawCost budget_mult itin)) }

/-! ## The typed stage payload

A typed view of the bag keys the later pipeline stages exchange
(each field `none` when its key is absent): the per-stage data contract
of the pipeline.  The empty bag `{}` is `emptyStageData`. -/

/-- Typed view of the inter-stage bag. -/
structure StageData where
  preferences : Option UserPreferences := none
  destination_location : Option Location := none
  origin_location : Option Location := none
  places : Option (List Place) := none
  weather_forecast : Option (List Weather) := none
  itinerary : Option Itinerary := none
deriving DecidableEq

/-- The empty bag at the typed level. -/
def emptyStageData : StageData := {}

/-- A stage result at the typed level. -/
structure AgentOutputT where
  data : StageData
  metadata : Bag := []
  success : Bool := true
  error : Option String := none

/-- `CostEstimatorAgent.process` at the bag level: the no-itinerary
guard returns a FAILED result that carries the whole input bag
(`AgentOutput(data=input_data.data, success=False, ...)`), and the
success path attaches the costed itinerary on top of the input bag. -/
def costEstimatorProcess (input : StageData) : AgentOutputT :=
  match input.itinerary with
  | none =>
      { data := input, success := false,
        error := some "No itinerary to cost estimate" }
  | some itinerary =>
      let itin := costEstimatorUpdate itinerary
      { data := { input with itinerary := some itin },
        metadata := [("cost_estimated", .bool true),
                     ("total_cost",
                      .num (roundTo2 (totalRawCost
                        (budgetMultiplier itinerary.preferences.budget)
                        itinerary)))],
        success := true }

/-! ## Runner lemmas -/

/-- The Python local `output` after the loop has consumed `agents`
(assuming they all succeed). -/
def lastOut : List StageFun → AgentInput → Option AgentOutput →
    Option AgentOutput
  | [], _, last => last
  | a :: rest, cur, _ =>
      lastOut rest { data := (agentRun a cur).data,
                     metadata := (agentRun a cur).metadata }
        (some (agentRun a cur))

theorem seqRunLoop_append (pre rest : List StageFun) (cur : AgentInput)
    (last : Option AgentOutput) (h : allOk pre cur = true) :
    seqRunLoop (pre ++ rest) cur last =
      seqRunLoop rest (thread pre cur) (lastOut pre cur last) := by
  induction pre generalizing cur last with
  | nil => rfl
  | cons a pre' ih =>
      rcases Bool.and_eq_true_iff.mp h with ⟨h1, h2⟩
      rw [List.cons_append, seqRunLoop]
      simp only [h1, if_true]
      rw [ih _ _ h2]
      rfl

theorem allOk_append (l1 l2 : List StageFun) (cur : AgentInput) :
    allOk (l1 ++ l2) cur = (allOk l1 cur && allOk l2 (thread l1 cur)) := by
  induction l1 generalizing cur with
  | nil => simp [allOk, thread]
  | cons a l1' ih =>
      rw [List.cons_append, allOk, allOk, ih]
      simp [thread, Bool.and_assoc]

/-- First failure wins: if the stages before `s` succeed and `s` fails,
the run returns `s`'s result, regardless of what comes after `s`. -/
theorem seqRun_halts_at (init : Bag) (pre : List StageFun) (s : StageFun)
    (post : List StageFun) (h1 : allOk pre { data := init } = true)
    (h2 : (agentRun s (thread pre { data := init })).success = false) :
    seqRun (pre ++ s :: post) init =
      .ok (agentRun s (thread pre { data := init })) := by
  rw [seqRun, seqRunLoop_append _ _ _ _ h1, seqRunLoop]
  simp only [h2]
  rfl

/-- All-success: the run returns the final stage's result. -/
theorem seqRun_all_ok (init : Bag) (pre : List StageFun) (s : StageFun)
    (h : allOk (pre ++ [s]) { data := init } = true) :
    seqRun (pre ++ [s]) init =
      .ok (agentRun s (thread pre { data := init })) := by
  rw [allOk_append] at h
  rcases Bool.and_eq_true_iff.mp h with ⟨h1, h2⟩
  rw [allOk] at h2
  rcases Bool.and_eq_true_iff.mp h2 with ⟨h3, _⟩
  rw [seqRun, seqRunLoop_append _ _ _ _ h1, seqRunLoop]
  simp only [h3, if_true]
  rfl

/-! ## Concrete fixtures for witnesses and counterexamples -/

/-- A successful stage output carrying one key. -/
def outA : AgentOutput := { data := [("k", .int 1)] }

/-- A stage that always completes successfully with `outA`. -/
def stOk : StageFun := fun _ => .completes outA

/-- A failing stage output (empty bag). -/
def outFail : AgentOutput :=
  { data := [], success := false, error := some "boom" }

/-- A stage that completes with a failure result. -/
def stFail : StageFun := fun _ => .completes outFail

/-- A stage whose `process` never finishes within the guard. -/
def stTimeout : StageFun := fun _ => .timeout

/-! ## Claim C1 -/

/-- **C1.** For every run of the sequential Runner: if the stages before
stage `s` succeed and `s` returns `success=false`, the run's result is
exactly `s`'s result, unmodified, and the stages after `s` are never
invoked (the run's result does not depend on them); if all stages return
`success=true`, the run's result is the final stage's result. -/
theorem C1_runner_first_failure_wins :
    ∀ (init : Bag),
      (∀ (pre : List StageFun) (s : StageFun) (post post' : List StageFun),
        allOk pre { data := init } = true →
        (agentRun s (thread pre { data := init })).success = false →
        seqRun (pre ++ s :: post) init =
          .ok (agentRun s (thread pre { data := init })) ∧
        seqRun (pre ++ s :: post) init = seqRun (pre ++ s :: post') init) ∧
      (∀ (pre : List StageFun) (s : StageFun),
        allOk (pre ++ [s]) { data := init } = true →
        seqRun (pre ++ [s]) init =
          .ok (agentRun s (thread pre { data := init }))) := by
  intro init
  refine ⟨fun pre s post post' h1 h2 => ⟨?_, ?_⟩, fun pre s h => ?_⟩
  · exact seqRun_halts_at init pre s post h1 h2
  · rw [seqRun_halts_at init pre s post h1 h2,
        seqRun_halts_at init pre s post' h1 h2]
  · exact seqRun_all_ok init pre s h

/-- Witness for C1 at concrete stage lists: a failing middle stage makes
the three-stage run return its result and ignore the third stage, and a
fully successful run returns the last stage's result. -/
theorem C1_witness :
    allOk [stOk] { data := ([] : Bag) } = true ∧
    (agentRun stFail (thread [stOk] { data := ([] : Bag) })).success = false ∧
    seqRun [stOk, stFail, stOk] [] =
      .ok (agentRun stFail (thread [stOk] { data := ([] : Bag) })) ∧
    seqRun [stOk, stFail, stOk] [] = seqRun [stOk, stFail] [] ∧
    seqRun [stOk, stOk] [] =
      .ok (agentRun stOk (thread [stOk] { data := ([] : Bag) })) :=
  ⟨rfl, rfl,
   ((C1_runner_first_failure_wins []).1 [stOk] stFail [stOk] [] rfl rfl).1,
   ((C1_runner_first_failure_wins []).1 [stOk] stFail [stOk] [] rfl rfl).2,
   (C1_runner_first_failure_wins []).2 [stOk] stOk rfl⟩

/-! ## Claim C2 -/

/-- **C2.** The configured per-stage timeout defaults to 12 seconds; a
stage whose `process` does not complete within the guard makes the
runner produce a failed result with error kind `"timeout"` and an empty
data bag, and no further stages of that run execute (the run's result
does not depend on the stages after the timed-out one). -/
theorem C2_timeout_discards_bag_and_halts :
    settings.agent_timeout_seconds = 12 ∧
    timeoutOutput.success = false ∧
    timeoutOutput.data = [] ∧
    timeoutOutput.metadata = [("error", .str "timeout")] ∧
    ∀ (init : Bag) (pre : List StageFun) (s : StageFun)
      (post post' : List StageFun),
      allOk pre { data := init } = true →
      s (thread pre { data := init }) = .timeout →
      seqRun (pre ++ s :: post) init = .ok timeoutOutput ∧
      seqRun (pre ++ s :: post) init = seqRun (pre ++ s :: post') init := by
  refine ⟨rfl, rfl, rfl, rfl, fun init pre s post post' h1 h2 => ?_⟩
  have hrun : agentRun s (thread pre { data := init }) = timeoutOutput := by
    rw [agentRun, h2]
  have hfail : (agentRun s (thread pre { data := init })).success = false := by
    rw [hrun]; rfl
  constructor
  · rw [seqRun_halts_at init pre s post h1 hfail, hrun]
  · rw [seqRun_halts_at init pre s post h1 hfail,
        seqRun_halts_at init pre s post' h1 hfail]

/-- Witness for C2: a run whose first stage times out returns the
timeout result and ignores the remaining stage. -/
theorem C2_witness :
    allOk [] { data := ([] : Bag) } = true ∧
    stTimeout (thread [] { data := ([] : Bag) }) = .timeout ∧
    seqRun [stTimeout, stOk] [] = .ok timeoutOutput ∧
    seqRun [stTimeout, stOk] [] = seqRun [stTimeout] [] :=
  ⟨rfl, rfl,
   (C2_timeout_discards_bag_and_halts.2.2.2.2 [] [] stTimeout [stOk] []
     rfl rfl).1,
   (C2_timeout_discards_bag_and_halts.2.2.2.2 [] [] stTimeout [stOk] []
     rfl rfl).2⟩

/-! ## Claim C10 -/

/-- **C10.** `SequentialAgent.run` with zero stages faults (the final
`return output` references a never-bound variable) instead of returning
a successful result; equivalently, any returned result — success or
failure — requires at least one stage. -/
theorem C10_empty_runner_faults :
    (∀ init : Bag, seqRun [] init = .error ()) ∧
    (∀ (agents : List StageFun) (init : Bag) (out : AgentOutput),
      seqRun agents init = .ok out → agents ≠ []) := by
  constructor
  · intro init; rfl
  · intro agents init out h
    cases agents with
    | nil => exact absurd h (by simp [seqRun, seqRunLoop])
    | cons a rest => simp

/-- Witness for C10: the empty runner faults, and a concrete one-stage
run that returns a result indeed has a non-empty stage list. -/
theorem C10_witness :
    seqRun [] [] = .error () ∧ ([stOk] : List StageFun) ≠ [] :=
  ⟨C10_empty_runner_faults.1 [],
   C10_empty_runner_faults.2 [stOk] [] outA rfl⟩

/-! ## Claim C5 -/

/-- `int(base_distance * style_multiplier)` truncates nothing: for every
travel style the product `duration_days * 40 * multiplier` is an
integer, so the code's cap equals the spec's
`min(duration_days * 40 * multiplier, 200)`. -/
theorem maxDistanceOf_cast (prefs : UserPreferences) :
    ((maxDistanceOf prefs : ℤ) : ℚ) =
      min ((prefs.duration_days : ℚ) * 40 *
        styleMultiplier prefs.travel_style) 200 := by
  rw [maxDistanceOf]
  cases h : prefs.travel_style
  · have e : ((prefs.duration_days * 40 : ℕ) : ℚ) * styleMultiplier .relaxed =
        ((32 * (prefs.duration_days : ℤ) : ℤ) : ℚ) := by
      rw [styleMultiplier]; push_cast; ring
    have e2 : (prefs.duration_days : ℚ) * 40 * styleMultiplier .relaxed =
        ((32 * (prefs.duration_days : ℤ) : ℤ) : ℚ) := by
      rw [styleMultiplier]; push_cast; ring
    rw [e, e2, Int.floor_intCast, Int.cast_min]
    norm_num
  · have e : ((prefs.duration_days * 40 : ℕ) : ℚ) * styleMultiplier .moderate =
        ((40 * (prefs.duration_days : ℤ) : ℤ) : ℚ) := by
      rw [styleMultiplier]; push_cast; ring
    have e2 : (prefs.duration_days : ℚ) * 40 * styleMultiplier .moderate =
        ((40 * (prefs.duration_days : ℤ) : ℤ) : ℚ) := by
      rw [styleMultiplier]; push_cast; ring
    rw [e, e2, Int.floor_intCast, Int.cast_min]
    norm_num
  · have e : ((prefs.duration_days * 40 : ℕ) : ℚ) * styleMultiplier .packed =
        ((52 * (prefs.duration_days : ℤ) : ℤ) : ℚ) := by
      rw [styleMultiplier]; push_cast; ring
    have e2 : (prefs.duration_days : ℚ) * 40 * styleMultiplier .packed =
        ((52 * (prefs.duration_days : ℤ) : ℤ) : ℚ) := by
      rw [styleMultiplier]; push_cast; ring
    rw [e, e2, Int.floor_intCast, Int.cast_min]
    norm_num

/-- **C5.** Every place surviving the distance filter carries a distance
at most `min(duration_days * 40 * style_multiplier, 200)` (multiplier
0.8 / 1.0 / 1.3 for relaxed / moderate / packed), and the stage's output
is sorted ascending by that distance — for any distance function, any
destination and any input places. -/
theorem C5_distance_filter_bound_and_sorted :
    ∀ (hav : ℚ → ℚ → ℚ → ℚ → ℚ) (dest : Location)
      (prefs : UserPreferences) (places : List Place),
      (∀ p ∈ distanceEvaluatorCore hav dest prefs places,
        ∃ dq, p.distance_from_route = some dq ∧
          dq ≤ min ((prefs.duration_days : ℚ) * 40 *
            styleMultiplier prefs.travel_style) 200) ∧
      List.Pairwise
        (fun a b =>
          a.distance_from_route.getD 0 ≤ b.distance_from_route.getD 0)
        (distanceEvaluatorCore hav dest prefs places) := by
  intro hav dest prefs places
  constructor
  · intro p hp
    rw [distanceEvaluatorCore, mem_sortLe] at hp
    rcases List.mem_filter.mp hp with ⟨_, hcond⟩
    cases hd : p.distance_from_route with
    | none => rw [hd] at hcond; exact absurd hcond (by simp)
    | some dq =>
        refine ⟨dq, rfl, ?_⟩
        rw [hd] at hcond
        have hle : dq ≤ ((maxDistanceOf prefs : ℤ) : ℚ) :=
          of_decide_eq_true hcond
        rwa [maxDistanceOf_cast prefs] at hle
  · rw [distanceEvaluatorCore]
    refine List.Pairwise.imp (fun h => of_decide_eq_true h)
      (pairwise_sortLe _ ?_ ?_ _)
    · intro a b
      rcases le_total (a.distance_from_route.getD 0)
          (b.distance_from_route.getD 0) with h | h
      · exact Or.inl (decide_eq_true h)
      · exact Or.inr (decide_eq_true h)
    · intro a b c h1 h2
      exact decide_eq_true (le_trans (of_decide_eq_true h1)
        (of_decide_eq_true h2))

/-- A constant distance collaborator used for the C5 witness. -/
def hav0 : ℚ → ℚ → ℚ → ℚ → ℚ := fun _ _ _ _ => 5

/-- A concrete destination location. -/
def loc0 : Location :=
  { name := "Paris, France", address := "Paris, France",
    latitude := 49, longitude := 2, place_id := some "paris" }

/-- Concrete moderate 3-day preferences. -/
def prefsM : UserPreferences :=
  { destination := "Paris, France", duration_days := 3,
    interests := ["sightseeing", "culture", "food"],
    start_date := some 100 }

/-- A concrete candidate place. -/
def placeA : Place :=
  { name := "Louvre",
    location := { name := "Louvre", address := "Rue de Rivoli",
                  latitude := 49, longitude := 2, place_id := some "a" },
    category := "museum, point_of_interest", rating := some (9/2) }

/-- `placeA` with the distance the filter stage stores on it. -/
def placeA5 : Place := { placeA with distance_from_route := some 5 }

/-- The concrete cap of a moderate 3-day trip is 120 km. -/
theorem maxDistanceOf_prefsM : maxDistanceOf prefsM = 120 := by
  norm_num [maxDistanceOf, prefsM, styleMultiplier]

/-- Witness for C5: on a concrete one-place input the surviving place's
stored distance (5 km) is within the 120 km cap of a moderate 3-day
trip, and the output is sorted. -/
theorem C5_witness :
    placeA5 ∈ distanceEvaluatorCore hav0 loc0 prefsM [placeA] ∧
    (∃ dq, placeA5.distance_from_route = some dq ∧
      dq ≤ min ((prefsM.duration_days : ℚ) * 40 *
        styleMultiplier prefsM.travel_style) 200) ∧
    List.Pairwise
      (fun a b =>
        a.distance_from_route.getD 0 ≤ b.distance_from_route.getD 0)
      (distanceEvaluatorCore hav0 loc0 prefsM [placeA]) := by
  have hmem : placeA5 ∈ distanceEvaluatorCore hav0 loc0 prefsM [placeA] := by
    simp only [distanceEvaluatorCore, mem_sortLe, maxDistanceOf_prefsM]
    rw [List.mem_filter]
    constructor
    · exact List.mem_map.mpr ⟨placeA, List.mem_singleton.mpr rfl, rfl⟩
    · norm_num [placeA5, placeA]
  exact ⟨hmem,
    (C5_distance_filter_bound_and_sorted hav0 loc0 prefsM [placeA]).1
      placeA5 hmem,
    (C5_distance_filter_bound_and_sorted hav0 loc0 prefsM [placeA]).2⟩

/-! ## Claim C3 -/

/-- The activity-building loop makes one activity per place of the
day. -/
theorem length_buildActivities (names : List String) (ps : List Place)
    (hour : ℕ) : (buildActivities names ps hour).length = ps.length := by
  induction ps generalizing hour with
  | nil => rfl
  | cons p rest ih => rw [buildActivities]; simp [ih]

/-- **C3.** For every preferences record with
`1 ≤ duration_days ≤ 30`, the itinerary a successful run produces (the
scheduling stage's itinerary, after the cost stage's per-day update)
has exactly `duration_days` days. -/
theorem C3_itinerary_day_count
    (prefs : UserPreferences) (places : List Place)
    (weather : List Weather) (origin : Option String) (dest : Location)
    (today : ℤ)
    (_h1 : 1 ≤ prefs.duration_days) (_h2 : prefs.duration_days ≤ 30) :
    (costEstimatorUpdate
      (itineraryPlannerCore prefs places weather origin dest today)).days.length
      = prefs.duration_days := by
  rw [costEstimatorUpdate, itineraryPlannerCore]
  simp

/-- Witness for C3: a concrete 3-day run yields a 3-day itinerary. -/
theorem C3_witness :
    1 ≤ prefsM.duration_days ∧ prefsM.duration_days ≤ 30 ∧
    (costEstimatorUpdate
      (itineraryPlannerCore prefsM [placeA] [] none loc0 0)).days.length
      = prefsM.duration_days :=
  ⟨by decide, by decide,
   C3_itinerary_day_count prefsM [placeA] [] none loc0 0
     (by decide) (by decide)⟩

/-! ## Claim C6 -/

/-- Each day slice of the planner has exactly `places_per_day` elements
when `places_per_day = top'.length / d` and the day index is below
`d`. -/
theorem slice_length_eq (top' : List Place) (d ppd : ℕ)
    (hppd : ppd = top'.length / d) (i : ℕ) (hi : i < d) :
    ((top'.drop (i * ppd)).take ppd).length = ppd := by
  have h1 : d * ppd ≤ top'.length := by
    rw [hppd, Nat.mul_comm]
    exact Nat.div_mul_le_self top'.length d
  have h2 : (i + 1) * ppd ≤ d * ppd :=
    Nat.mul_le_mul_right ppd hi
  have h3 : i * ppd + ppd ≤ top'.length := by
    have : i * ppd + ppd = (i + 1) * ppd := by ring
    rw [this]
    exact le_trans h2 h1
  rw [List.length_take, List.length_drop]
  refine min_eq_left (Nat.le_sub_of_add_le ?_)
  rw [Nat.add_comm]
  exact h3

/-- The activity count of one planner day is the day slice's size. -/
theorem activities_length_plannerDayFor (top' : List Place)
    (names : List String) (weather : List Weather) (start : ℤ)
    (ppd i : ℕ) :
    (plannerDayFor top' names weather start ppd i).activities.length =
      ((top'.drop (i * ppd)).take ppd).length := by
  simp [plannerDayFor, length_buildActivities]

/-- Mapping the activity count over the planner's day loop gives
`places_per_day` for every one of the `d` days. -/
theorem planner_map_lengths (top' : List Place) (names : List String)
    (weather : List Weather) (start : ℤ) (d ppd : ℕ)
    (hppd : ppd = top'.length / d) :
    List.map ((fun day => day.activities.length) ∘
        plannerDayFor top' names weather start ppd) (List.range d)
      = List.replicate d ppd := by
  refine List.eq_replicate_iff.mpr ⟨by simp, ?_⟩
  intro b hb
  obtain ⟨i, hi, rfl⟩ := List.mem_map.mp hb
  simp only [Function.comp_apply, activities_length_plannerDayFor]
  exact slice_length_eq top' d ppd hppd i (List.mem_range.mp hi)

/-- Whether or not the weather-aware reordering fires, the selected
candidate list keeps its length. -/
theorem length_reorder (c : Prop) [Decidable c] (le : α → α → Bool)
    (l : List α) : (if c then sortLe le l else l).length = l.length := by
  split
  · rw [length_sortLe]
  · rfl

/-- **C6 (amended).** The scheduling stage selects up to
`duration_days * 4` top-ranked candidates and gives each of the
`duration_days` days exactly `⌊selected / duration_days⌋` of them; in
particular `selected mod duration_days` selected candidates are left
unscheduled whenever `duration_days` does not divide the selected
count. -/
theorem C6_even_distribution_with_floor
    (prefs : UserPreferences) (places : List Place)
    (weather : List Weather) (origin : Option String) (dest : Location)
    (today : ℤ) (h : 1 ≤ prefs.duration_days) :
    (itineraryPlannerCore prefs places weather origin dest today).days.map
        (fun day => day.activities.length)
      = List.replicate prefs.duration_days
          ((min (prefs.duration_days * 4) places.length) /
            prefs.duration_days) := by
  have hd' : 0 < prefs.duration_days := h
  simp only [itineraryPlannerCore, if_pos hd']
  rw [List.map_map]
  refine Eq.trans (planner_map_lengths _ _ _ _ _ _ ?_) ?_
  · rw [length_reorder]
  · rw [List.length_take]

/-- Concrete 2-day preferences for the C6 counterexample. -/
def prefsTwo : UserPreferences :=
  { destination := "X", duration_days := 2, interests := ["a"],
    start_date := some 0 }

/-- A minimal concrete place. -/
def mkPlace (nm : String) : Place :=
  { name := nm,
    location := { name := nm, address := "", latitude := 0, longitude := 0 },
    category := "museum" }

/-- Five candidate places. -/
def placesFive : List Place :=
  [mkPlace "P1", mkPlace "P2", mkPlace "P3", mkPlace "P4", mkPlace "P5"]

/-- Counterexample to C6 as stated: with 2 days and 5 candidates all 5
are selected (5 < 2*4 = 8) but only 2*⌊5/2⌋ = 4 activities are
scheduled — one selected candidate is left unscheduled. -/
theorem C6_counterexample :
    ((itineraryPlannerCore prefsTwo placesFive [] none loc0 0).days.map
        (fun day => day.activities.length)).sum = 4 ∧
    min (prefsTwo.duration_days * 4) placesFive.length = 5 ∧
    ((itineraryPlannerCore prefsTwo placesFive [] none loc0 0).days.map
        (fun day => day.activities.length)).sum ≠
      min (prefsTwo.duration_days * 4) placesFive.length := by
  refine ⟨by decide, by decide, by decide⟩

/-- Witness for C6 (amended): the same concrete run gives each of the 2
days exactly 2 activities. -/
theorem C6_witness :
    1 ≤ prefsTwo.duration_days ∧
    (itineraryPlannerCore prefsTwo placesFive [] none loc0 0).days.map
        (fun day => day.activities.length)
      = List.replicate prefsTwo.duration_days
          ((min (prefsTwo.duration_days * 4) placesFive.length) /
            prefsTwo.duration_days) :=
  ⟨by decide,
   C6_even_distribution_with_floor prefsTwo placesFive [] none loc0 0
     (by decide)⟩

/-! ## Claim C7 -/

/-- **C7 (code bug).** The repository's forecast fetch returns one
record per requested day (here its pure final fallback, 2 records for a
2-day trip), yet the Fetch Weather stage indexes `weather_data[day_offset * 8]`
— written for 3-hourly records — and therefore produces only 1 Weather
record instead of one per trip day. -/
theorem C7_weather_day_count_bug :
    prefsTwo.duration_days = 2 ∧
    (fallbackForecast 2).length = 2 ∧
    (weatherOptimizerCore prefsTwo 0 (fallbackForecast 2)).length = 1 := by
  refine ⟨rfl, rfl, rfl⟩

/-! ## Claim C9 -/

/-- **C9.** When the reasoning collaborator always faults, the ranking
stage computes `fallbackRanking`, a pure function of the input places:
any two faulting collaborators give identical outputs, every output
place carries `relevance = popularity = (rating or 0) * 20`, and the
output is sorted descending by the composite score. -/
theorem C9_fallback_ranking_deterministic :
    ∀ (llm1 llm2 : String → String → Option String),
      (∀ u s, llm1 u s = none) → (∀ u s, llm2 u s = none) →
      ∀ (prefs prefs2 : UserPreferences) (places : List Place),
        placeRankerCore llm1 prefs places = fallbackRanking places ∧
        placeRankerCore llm1 prefs places =
          placeRankerCore llm2 prefs2 places ∧
        (∀ p ∈ placeRankerCore llm1 prefs places,
          p.relevance_score = ratingD p * 20 ∧
          p.popularity_score = ratingD p * 20) ∧
        List.Pairwise (fun a b => compositeScore b ≤ compositeScore a)
          (placeRankerCore llm1 prefs places) := by
  intro llm1 llm2 h1 h2 prefs prefs2 places
  have e1 : placeRankerCore llm1 prefs places = fallbackRanking places := by
    rw [placeRankerCore, h1]
  have e2 : placeRankerCore llm2 prefs2 places = fallbackRanking places := by
    rw [placeRankerCore, h2]
  refine ⟨e1, by rw [e1, e2], ?_, ?_⟩
  · intro p hp
    rw [e1, fallbackRanking, sortByCompositeDesc, mem_sortLe,
        fallbackScoreAll] at hp
    obtain ⟨q, _, rfl⟩ := List.mem_map.mp hp
    constructor <;> simp [ratingD]
  · rw [e1, fallbackRanking, sortByCompositeDesc]
    refine List.Pairwise.imp (fun h => of_decide_eq_true h)
      (pairwise_sortLe _ ?_ ?_ _)
    · intro a b
      rcases le_total (compositeScore b) (compositeScore a) with h | h
      · exact Or.inl (decide_eq_true h)
      · exact Or.inr (decide_eq_true h)
    · intro a b c hab hbc
      exact decide_eq_true (le_trans (of_decide_eq_true hbc)
        (of_decide_eq_true hab))

/-- A reasoning collaborator that always faults. -/
def llmFault : String → String → Option String := fun _ _ => none

/-- A second concrete place for the C9 witness. -/
def placeB : Place :=
  { name := "Eiffel Tower",
    location := { name := "Eiffel Tower", address := "Champ de Mars",
                  latitude := 49, longitude := 2, place_id := some "b" },
    category := "historic site", rating := some 4 }

/-- Witness for C9 at a concrete faulting collaborator and two concrete
places. -/
theorem C9_witness :
    placeRankerCore llmFault prefsM [placeA, placeB] =
      fallbackRanking [placeA, placeB] ∧
    placeRankerCore llmFault prefsM [placeA, placeB] =
      placeRankerCore llmFault prefsTwo [placeA, placeB] ∧
    (∀ p ∈ placeRankerCore llmFault prefsM [placeA, placeB],
      p.relevance_score = ratingD p * 20 ∧
      p.popularity_score = ratingD p * 20) ∧
    List.Pairwise (fun a b => compositeScore b ≤ compositeScore a)
      (placeRankerCore llmFault prefsM [placeA, placeB]) :=
  C9_fallback_ranking_deterministic llmFault llmFault
    (fun _ _ => rfl) (fun _ _ => rfl) prefsM prefsTwo [placeA, placeB]

/-! ## Claim C4 -/

/-- **C4 (amended).** Every failure result constructed by the validator
stage, and every failure result the runner's boundary fabricates for a
timeout or a raised exception, carries an empty data bag — but the cost
estimator's no-itinerary failure carries its whole input bag,
unmodified. -/
theorem C4_failure_results_and_their_bags :
    (∀ (geocode : String → Option Location) (today : ℤ) (bag : Bag),
      (validatorProcess geocode today bag).success = false →
      (validatorProcess geocode today bag).data = []) ∧
    (∀ (s : StageFun) (inp : AgentInput),
      (s inp = .timeout ∨ ∃ msg, s inp = .raises msg) →
      (agentRun s inp).data = []) ∧
    (∀ input : StageData, input.itinerary = none →
      (costEstimatorProcess input).success = false ∧
      (costEstimatorProcess input).data = input) := by
  refine ⟨?_, ?_, ?_⟩
  · intro geocode today bag h
    rcases hp : parseUserPreferences bag with e | prefs
    · simp [validatorProcess, hp]
    · rcases hg : geocode prefs.destination with _ | loc
      · simp [validatorProcess, hp, hg]
      · simp [validatorProcess, hp, hg] at h
  · intro s inp h
    rcases h with h | ⟨msg, h⟩
    · rw [agentRun, h]; rfl
    · rw [agentRun, h]; rfl
  · intro input h
    rw [costEstimatorProcess, h]
    exact ⟨rfl, rfl⟩

/-- A non-empty typed bag with no itinerary (what the cost stage sees
when scheduling never ran). -/
def prefsBagOnly : StageData := { preferences := some prefsM }

/-- Counterexample to C4 as stated: the cost estimator's no-itinerary
failure has `success = false` but a non-empty data bag. -/
theorem C4_counterexample :
    (costEstimatorProcess prefsBagOnly).success = false ∧
    (costEstimatorProcess prefsBagOnly).data ≠ emptyStageData := by
  refine ⟨rfl, ?_⟩
  intro hEq
  have : prefsBagOnly = emptyStageData := hEq
  exact absurd (congrArg StageData.preferences this) (by decide)

/-- Witness for C4 (amended): concrete instances of all three
conjuncts. -/
theorem C4_witness :
    (validatorProcess (fun _ => none) 0 []).success = false ∧
    (validatorProcess (fun _ => none) 0 []).data = [] ∧
    (stTimeout { data := [] } = .timeout ∨
      ∃ msg, stTimeout { data := [] } = .raises msg) ∧
    (agentRun stTimeout { data := [] }).data = [] ∧
    prefsBagOnly.itinerary = none ∧
    (costEstimatorProcess prefsBagOnly).success = false ∧
    (costEstimatorProcess prefsBagOnly).data = prefsBagOnly :=
  ⟨rfl,
   C4_failure_results_and_their_bags.1 (fun _ => none) 0 [] rfl,
   Or.inl rfl,
   C4_failure_results_and_their_bags.2.1 stTimeout { data := [] }
     (Or.inl rfl),
   rfl,
   (C4_failure_results_and_their_bags.2.2 prefsBagOnly rfl).1,
   (C4_failure_results_and_their_bags.2.2 prefsBagOnly rfl).2⟩

/-! ## Claim C8 -/

/-- **C8 (amended).** The Validate stage is not idempotent on bags: its
success output nests the normalized preferences under the
`"preferences"` key, so feeding that bag back through the stage always
fails pydantic validation (no top-level `destination`), for every
geocoder, every pair of invocation days and every input bag. -/
theorem C8_validator_refuses_own_output :
    ∀ (geocode : String → Option Location) (today today2 : ℤ) (bag : Bag),
      (validatorProcess geocode today bag).success = true →
      (validatorProcess geocode today2
        ((validatorProcess geocode today bag).data)).success = false := by
  intro geocode today today2 bag h
  rcases hp : parseUserPreferences bag with e | prefs
  · simp [validatorProcess, hp] at h
  · rcases hg : geocode prefs.destination with _ | loc
    · simp [validatorProcess, hp, hg] at h
    · simp only [validatorProcess, hp, hg]
      rfl

/-- A geocoder that resolves only Paris. -/
def geoParis : String → Option Location :=
  fun s => if s = "Paris, France" then some loc0 else none

/-- A concrete raw preferences bag. -/
def bagParis : Bag :=
  [("destination", .str "Paris, France"), ("duration_days", .int 3),
   ("interests", .list [.str "Art"])]

/-- Counterexample to C8 as stated: the first validation succeeds with a
3-key bag, and feeding that bag back fails and returns the empty bag —
not the unchanged bag the claim requires. -/
theorem C8_counterexample :
    (validatorProcess geoParis 0 bagParis).success = true ∧
    (validatorProcess geoParis 0
      ((validatorProcess geoParis 0 bagParis).data)).success = false ∧
    (validatorProcess geoParis 0 bagParis).data.length = 3 ∧
    (validatorProcess geoParis 0
      ((validatorProcess geoParis 0 bagParis).data)).data.length = 0 :=
  ⟨rfl, rfl, rfl, rfl⟩

/-- Witness for C8 (amended): applying the theorem to the concrete
Paris run. -/
theorem C8_witness :
    (validatorProcess geoParis 0 bagParis).success = true ∧
    (validatorProcess geoParis 5
      ((validatorProcess geoParis 0 bagParis).data)).success = false :=
  ⟨rfl, C8_validator_refuses_own_output geoParis 0 5 bagParis rfl⟩

end TripGenie
